import Mathlib

/-!
Shallow embedding of the two scripts of the `plp_bookstore` repository:
`connection.js` (the Connector) and `queries.js` (the Query Runner).

The data model is the Book Record: a document of the `books` collection of
the `plp_bookstore` database, with fields `title`, `author`, `genre`,
`price`, `published_year`, `in_stock`, plus the document identifier `_id`
that every stored document carries (the script's projections exclude it).
Prices are modelled as exact rationals.  Database operations of the script
become functions on `List Book`; the try/catch/finally control flow of
`executeQueries` becomes a trace semantics over an abstract per-step
outcome; the module-level wiring (which connection string, which client
handle) is embedded as explicit configuration data.
-/

namespace Plp

/-- A document of the `books` collection.  `_id` is the document key the
store assigns; the remaining fields are the externally defined schema the
scripts assume. -/
structure Book where
  _id : Nat
  title : String
  author : String
  genre : String
  price : ℚ
  published_year : Int
  in_stock : Bool
deriving DecidableEq

/-- Byte/codepoint lexicographic order on character lists, the order the
database uses to compare string sort keys. -/
def charListLe : List Char → List Char → Bool
  | [], _ => true
  | _ :: _, [] => false
  | a :: as, b :: bs =>
    if a.toNat < b.toNat then true
    else if b.toNat < a.toNat then false
    else charListLe as bs

/-- Lexicographic order on strings, via their character lists. -/
def strLe (a b : String) : Bool := charListLe a.data b.data

/-- Insert an element into a list in front of the first element it is
`le`-below. -/
def insertLe (le : α → α → Bool) (a : α) : List α → List α
  | [] => [a]
  | b :: l => if le a b then a :: b :: l else b :: insertLe le a l

/-- Insertion sort with a boolean comparator: the deterministic model of
the server's sort stage. -/
def sortLe (le : α → α → Bool) : List α → List α
  | [] => []
  | a :: l => insertLe le a (sortLe le l)

/-! ## CRUD steps of `queries.js` (lines 22-35) -/

/-- The per-document effect of
`updateMany({ genre: "Fantasy" }, { $mul: { price: 1.1 } })`
(queries.js lines 28-31): a matching document's price is multiplied by
1.1, any other document is untouched. -/
def applyMulFantasy (b : Book) : Book :=
  if b.genre = "Fantasy" then { b with price := b.price * 1.1 } else b

/-- The price-multiply step: the updated collection paired with the
driver's `modifiedCount`, the number of matching documents the update
actually changed. -/
def updateFantasyPrices (c : List Book) : List Book × Nat :=
  (c.map applyMulFantasy, c.countP (fun b => decide (applyMulFantasy b ≠ b)))

/-- The year-threshold delete step
`deleteMany({ published_year: { $lt: 1950 } })` (queries.js line 34): the
remaining collection paired with the driver's `deletedCount`. -/
def deleteOldBooks (c : List Book) : List Book × Nat :=
  (c.filter (fun b => !decide (b.published_year < 1950)),
   c.countP (fun b => decide (b.published_year < 1950)))

/-- The spec's example seed: three Fantasy records with prices 10, 20, 30. -/
def seedFantasy : List Book :=
  [⟨1, "A", "a1", "Fantasy", 10, 2000, true⟩,
   ⟨2, "B", "a2", "Fantasy", 20, 2001, true⟩,
   ⟨3, "C", "a3", "Fantasy", 30, 2002, false⟩]

/-! ## The `find` calls of `queries.js` -/

/-- The filter documents that occur in the script's `find` calls. -/
inductive QueryFilter
  | all
  | genreEq (g : String)
  | inStockAndYearGt (y : Int)
  | titleEq (t : String)
  | priceEq (p : ℚ)
deriving DecidableEq

/-- The sort documents that occur in the script's `find` calls. -/
inductive SortKey
  | byTitleAsc
  | byPriceAsc
  | byPriceDesc
deriving DecidableEq

/-- Whether a document matches a filter. -/
def matchesFilter : QueryFilter → Book → Bool
  | .all, _ => true
  | .genreEq g, b => decide (b.genre = g)
  | .inStockAndYearGt y, b => b.in_stock && decide (y < b.published_year)
  | .titleEq t, b => decide (b.title = t)
  | .priceEq p, b => decide (b.price = p)

/-- The comparator a sort document denotes. -/
def sortKeyLe : SortKey → Book → Book → Bool
  | .byTitleAsc, a, b => strLe a.title b.title
  | .byPriceAsc, a, b => decide (a.price ≤ b.price)
  | .byPriceDesc, a, b => decide (b.price ≤ a.price)

/-- One `find(filter).sort(s).skip(k).limit(n)` call. -/
structure FindCall where
  filterSpec : QueryFilter
  sortSpec : Option SortKey
  skip : Nat
  limit : Option Nat
deriving DecidableEq

/-- Server semantics of a `find` call: filter, then sort, then apply the
offset, then the limit. -/
def runFind (q : FindCall) (c : List Book) : List Book :=
  let m := c.filter (matchesFilter q.filterSpec)
  let s :=
    match q.sortSpec with
    | none => m
    | some k => sortLe (sortKeyLe k) m
  let s := s.drop q.skip
  match q.limit with
  | none => s
  | some n => s.take n

/-- The projected shape `{ title: 1, author: 1, price: 1, _id: 0 }` all the
script's read queries return. -/
structure BookView where
  title : String
  author : String
  price : ℚ
deriving DecidableEq

/-- Apply the script's projection to one document. -/
def projectBook (b : Book) : BookView := ⟨b.title, b.author, b.price⟩

/-- queries.js lines 22-25: the Fantasy-genre read. -/
def fantasyQuery : FindCall := ⟨.genreEq "Fantasy", none, 0, none⟩

/-- queries.js lines 39-42: in-stock books published after 1950. -/
def inStockQuery : FindCall := ⟨.inStockAndYearGt 1950, none, 0, none⟩

/-- queries.js lines 45-48: top 3 books by descending price. -/
def top3Query : FindCall := ⟨.all, some .byPriceDesc, 0, some 3⟩

/-- queries.js line 51: `PAGE_SIZE = 5`. -/
def PAGE_SIZE : Nat := 5

/-- queries.js lines 52-53: page 1, sorted by title, skip 0, limit 5. -/
def page1Query : FindCall := ⟨.all, some .byTitleAsc, 0, some PAGE_SIZE⟩

/-- queries.js lines 57-58: page 2, sorted by title, skip 5, limit 5. -/
def page2Query : FindCall := ⟨.all, some .byTitleAsc, PAGE_SIZE, some PAGE_SIZE⟩

/-- queries.js line 116: full set sorted by ascending price. -/
def sortAscQuery : FindCall := ⟨.all, some .byPriceAsc, 0, none⟩

/-- queries.js line 120: full set sorted by descending price. -/
def sortDescQuery : FindCall := ⟨.all, some .byPriceDesc, 0, none⟩

/-- The projected result of the page-1 read. -/
def page1Result (c : List Book) : List BookView :=
  (runFind page1Query c).map projectBook

/-- The projected result of the page-2 read. -/
def page2Result (c : List Book) : List BookView :=
  (runFind page2Query c).map projectBook

/-- The whole collection sorted by title and projected: the sequence the
two pages paginate. -/
def fullSortedByTitle (c : List Book) : List BookView :=
  (sortLe (sortKeyLe .byTitleAsc) c).map projectBook

/-- Sort projected records by title: re-sorting a concatenation of pages. -/
def sortViews (l : List BookView) : List BookView :=
  sortLe (fun a b => strLe a.title b.title) l

/-! ## The aggregation pipelines of `queries.js` -/

/-- Result shape of the `$group` stages that compute `avgPrice` and
`totalBooks` (queries.js lines 63-67 and 71-74). -/
structure PriceGroup where
  _id : String
  avgPrice : ℚ
  totalBooks : Nat
deriving DecidableEq

/-- Result shape of the `$group` stage that computes `bookCount`
(queries.js lines 79-83). -/
structure CountGroup where
  _id : String
  bookCount : Nat
deriving DecidableEq

/-- Result shape of the decade `$group` stage (queries.js lines 92-100). -/
structure DecadeGroup where
  _id : String
  count : Nat
deriving DecidableEq

/-- The distinct `$group` keys occurring in a collection, under a key
function (in first-occurrence order). -/
def groupKeys (f : Book → String) (c : List Book) : List String :=
  (c.map f).dedup

/-- `$sum: 1` for one group: the number of documents with the given key. -/
def keyCount (f : Book → String) (k : String) (c : List Book) : Nat :=
  c.countP (fun b => f b == k)

/-- `$avg: "$price"` for one group. -/
def keyAvgPrice (f : Book → String) (k : String) (c : List Book) : ℚ :=
  ((c.filter (fun b => f b == k)).map Book.price).sum / (keyCount f k c : ℚ)

/-- queries.js lines 63-67: group by author with average price and book
count, sort by `avgPrice` descending, `$limit: 5`. -/
def topAuthors (c : List Book) : List PriceGroup :=
  (sortLe (fun g h => decide (h.avgPrice ≤ g.avgPrice))
    ((groupKeys Book.author c).map
      (fun a => ⟨a, keyAvgPrice Book.author a c, keyCount Book.author a c⟩))).take 5

/-- queries.js lines 71-74: group by genre with average price and book
count, sort by `avgPrice` descending, no limit. -/
def avgPriceByGenre (c : List Book) : List PriceGroup :=
  sortLe (fun g h => decide (h.avgPrice ≤ g.avgPrice))
    ((groupKeys Book.genre c).map
      (fun g => ⟨g, keyAvgPrice Book.genre g c, keyCount Book.genre g c⟩))

/-- queries.js lines 79-83: group by author with book count, sort by
`bookCount` descending, `$limit: 1`. -/
def topAuthorByBooks (c : List Book) : List CountGroup :=
  (sortLe (fun g h => h.bookCount ≤ g.bookCount)
    ((groupKeys Book.author c).map
      (fun a => ⟨a, keyCount Book.author a c⟩))).take 1

/-- The decade key of queries.js line 95:
`concat(toString(year - (year mod 10)), "s")`, with the `$mod` of the
server truncating toward zero. -/
def decadeKey (b : Book) : String :=
  toString (b.published_year - Int.tmod b.published_year 10) ++ "s"

/-- queries.js lines 92-100: group by publication decade with document
count, sort by the decade string ascending, no limit. -/
def booksByDecade (c : List Book) : List DecadeGroup :=
  sortLe (fun g h => strLe g._id h._id)
    ((groupKeys decadeKey c).map (fun k => ⟨k, keyCount decadeKey k c⟩))

/-- What the script prints for the author-with-most-books step. -/
inductive TopAuthorReport
  | topAuthor (author : String) (bookCount : Nat)
  | noAuthorsFound
deriving DecidableEq

/-- queries.js lines 84-89: element 0 of the aggregation result is read
only under the `length > 0` guard; the empty result prints the fallback
line instead. -/
def reportTopAuthor (res : List CountGroup) : TopAuthorReport :=
  if h : 0 < res.length then
    let a := res.get ⟨0, h⟩
    .topAuthor a._id a.bookCount
  else
    .noAuthorsFound

/-! ## Module wiring: connection strings, client handles, required modules -/

/-- Where a script's connection target comes from: a literal in the file,
or an environment variable read at startup. -/
inductive UriSource
  | hardcoded (target : String)
  | fromEnv (varName : String)
deriving DecidableEq

/-- Whether a connection target is supplied by the environment. -/
def isFromEnv : UriSource → Bool
  | .fromEnv _ => true
  | .hardcoded _ => false

/-- connection.js line 4: `mongoose.connect(process.env.MONGODB_URI)`. -/
def connectionModuleUri : UriSource := .fromEnv "MONGODB_URI"

/-- queries.js line 5: `const uri = "mongodb://localhost:27017"`. -/
def uri : UriSource := .hardcoded "mongodb://localhost:27017"

/-- The connection target of the script that actually executes: queries.js
invokes `executeQueries()` at top level (line 144) and connects with its
own `uri`; connection.js only exports a helper. -/
def executedScriptUri : UriSource := uri

/-- A connection handle: the `MongoClient` queries.js constructs, or the
mongoose connection `connectDB` of connection.js establishes. -/
inductive ClientHandle
  | mongoClient (target : UriSource) (serverSelectionTimeoutMS : Nat)
  | mongooseConnection (target : UriSource)
deriving DecidableEq

/-- queries.js line 6:
`new MongoClient(uri, { serverSelectionTimeoutMS: 30000 })`. -/
def client : ClientHandle := .mongoClient uri 30000

/-- connection.js lines 3-6: the connection handle `connectDB`
establishes, from the environment-supplied target. -/
def connectDBHandle : ClientHandle := .mongooseConnection connectionModuleUri

/-- queries.js line 8. -/
def DB_NAME : String := "plp_bookstore"

/-- queries.js line 9. -/
def COLLECTION_NAME : String := "books"

/-- A database handle, remembering the client it came from. -/
structure DbHandle where
  ofClient : ClientHandle
  dbName : String
deriving DecidableEq

/-- A collection handle, remembering the database it came from. -/
structure CollectionRef where
  ofDb : DbHandle
  collName : String
deriving DecidableEq

/-- queries.js line 17: `client.db(DB_NAME)`. -/
def db : DbHandle := ⟨client, DB_NAME⟩

/-- queries.js line 18: `db.collection(COLLECTION_NAME)`. -/
def booksCollection : CollectionRef := ⟨db, COLLECTION_NAME⟩

/-- The client a collection handle's operations go through. -/
def clientOf (cr : CollectionRef) : ClientHandle := cr.ofDb.ofClient

/-- The modules queries.js requires (line 3: only the mongodb driver). -/
def queriesRequires : List String := ["mongodb"]

/-- The modules connection.js requires (lines 1-2). -/
def connectionRequires : List String := ["mongoose", "dotenv"]

/-! ## Control flow of `executeQueries` (queries.js lines 11-142) -/

/-- The awaited operations inside the `try` block, in textual order. -/
inductive Step
  | connect
  | findFantasy
  | updateFantasy
  | deleteOld
  | findInStock
  | findTop3
  | findPage1
  | findPage2
  | aggTopAuthors
  | aggAvgByGenre
  | aggTopAuthorByBooks
  | aggByDecade
  | createIndexTitle
  | createIndexCompound
  | listIndexes
  | sortPriceAsc
  | sortPriceDesc
  | explainIndexed
  | explainNonIndexed
deriving DecidableEq

/-- The fixed sequence of the `try` block, in the order the script awaits
them. -/
def scriptSteps : List Step :=
  [.connect, .findFantasy, .updateFantasy, .deleteOld, .findInStock,
   .findTop3, .findPage1, .findPage2, .aggTopAuthors, .aggAvgByGenre,
   .aggTopAuthorByBooks, .aggByDecade, .createIndexTitle,
   .createIndexCompound, .listIndexes, .sortPriceAsc, .sortPriceDesc,
   .explainIndexed, .explainNonIndexed]

/-- The connection handle each step goes through: `connect` calls the
client directly, every query step is a method of `booksCollection`. -/
def clientUsed : Step → ClientHandle
  | .connect => client
  | _ => clientOf booksCollection

/-- Observable events of one run of `executeQueries`. -/
inductive Event
  | ran (s : Step)
  | errorLogged (msg : String)
  | closeCalled
  | closedMsgPrinted
deriving DecidableEq

/-- The `try` block: steps run in order while they succeed; the first
failure is caught by the single `catch`, which logs the underlying
message, and nothing after it runs. -/
def runTryBlock (outcome : Step → Except String Unit) : List Step → List Event
  | [] => []
  | s :: rest =>
    match outcome s with
    | .ok _ => .ran s :: runTryBlock outcome rest
    | .error m => [.ran s, .errorLogged m]

/-- Whole-run semantics of `executeQueries`: the `try` block under the
given per-step outcomes, then the `finally` block, which closes the client
and prints the connection-closed line. -/
def executeQueries (outcome : Step → Except String Unit) : List Event :=
  runTryBlock outcome scriptSteps ++ [.closeCalled, .closedMsgPrinted]

/-- An environment in which the update step fails and everything else
succeeds. -/
def outcomeUpdateFails : Step → Except String Unit
  | .updateFantasy => .error "boom"
  | _ => .ok ()

/-- An environment in which the initial connect fails. -/
def outcomeConnectFails : Step → Except String Unit
  | .connect => .error "ENOTFOUND"
  | _ => .ok ()

/-! ## Concrete collections used as counterexamples and witnesses -/

/-- Eleven documents: the sorted-by-title order is A B C D E E F G H I J,
the two E documents are distinct (`_id` 5 and 6) but project to the same
`(title, author, price)` view. -/
def cex11 : List Book :=
  [⟨1, "A", "x", "G", 1, 1960, true⟩,
   ⟨2, "B", "x", "G", 2, 1961, true⟩,
   ⟨3, "C", "x", "G", 3, 1962, true⟩,
   ⟨4, "D", "x", "G", 4, 1963, true⟩,
   ⟨5, "E", "x", "G", 5, 1964, true⟩,
   ⟨6, "E", "x", "G", 5, 1965, true⟩,
   ⟨7, "F", "x", "G", 7, 1966, true⟩,
   ⟨8, "G", "x", "G", 8, 1967, true⟩,
   ⟨9, "H", "x", "G", 9, 1968, true⟩,
   ⟨10, "I", "x", "G", 10, 1969, true⟩,
   ⟨11, "J", "x", "G", 11, 1970, true⟩]

/-- Six documents by six different authors: more groups than the `$limit`
of the top-authors pipeline keeps. -/
def c6authors : List Book :=
  [⟨1, "T1", "a1", "G", 10, 1960, true⟩,
   ⟨2, "T2", "a2", "G", 10, 1961, true⟩,
   ⟨3, "T3", "a3", "G", 10, 1962, true⟩,
   ⟨4, "T4", "a4", "G", 10, 1963, true⟩,
   ⟨5, "T5", "a5", "G", 10, 1964, true⟩,
   ⟨6, "T6", "a6", "G", 10, 1965, true⟩]

/-- Two documents, one published before 1950. -/
def cDelete : List Book :=
  [⟨1, "Old", "a", "G", 5, 1900, true⟩,
   ⟨2, "New", "a", "G", 6, 1980, true⟩]

/-- Two documents with distinct projections. -/
def cTwo : List Book :=
  [⟨1, "A", "a", "G", 1, 1960, true⟩,
   ⟨2, "B", "b", "G", 2, 1961, true⟩]

/-- One document. -/
def cOne : List Book := [⟨1, "A", "a", "G", 1, 1960, true⟩]

/-- The first seed record and its state after the price-multiply step. -/
def bkSeed0 : Book := ⟨1, "A", "a1", "Fantasy", 10, 2000, true⟩

/-- `bkSeed0` with its price multiplied by 1.1. -/
def bkSeed0After : Book := ⟨1, "A", "a1", "Fantasy", 11, 2000, true⟩

/-- The projected view shared by the two distinct E documents of `cex11`. -/
def dupView : BookView := ⟨"E", "x", 5⟩

/-! ## General lemmas about the embedded operations -/

theorem insertLe_perm (le : α → α → Bool) (a : α) (l : List α) :
    (insertLe le a l).Perm (a :: l) := by
  induction l with
  | nil => exact List.Perm.refl _
  | cons b t ih =>
    simp only [insertLe]
    split
    · exact List.Perm.refl _
    · exact (ih.cons b).trans (List.Perm.swap a b t)

theorem sortLe_perm (le : α → α → Bool) (l : List α) : (sortLe le l).Perm l := by
  induction l with
  | nil => exact List.Perm.refl _
  | cons a t ih => exact (insertLe_perm le a (sortLe le t)).trans (ih.cons a)

theorem sum_map_sortLe (le : β → β → Bool) (g : β → Nat) (l : List β) :
    ((sortLe le l).map g).sum = (l.map g).sum :=
  ((sortLe_perm le l).map g).sum_eq

theorem sum_keyCounts (f : Book → String) (c : List Book) :
    ((groupKeys f c).map (fun k => keyCount f k c)).sum = c.length := by
  have h1 : ∀ k, keyCount f k c = (c.map f).count k := by
    intro k
    simp only [keyCount, List.count, List.countP_map]
    rfl
  calc ((groupKeys f c).map (fun k => keyCount f k c)).sum
      = ((c.map f).dedup.map (fun k => (c.map f).count k)).sum := by
        simp only [groupKeys]
        exact congrArg List.sum (List.map_congr_left (fun k _ => h1 k))
    _ = (c.map f).length := List.sum_map_count_dedup_eq_length _
    _ = c.length := List.length_map _ _

theorem sum_map_eq_length_of_all_one (g : β → Nat) (l : List β)
    (h : ∀ x ∈ l, g x = 1) : (l.map g).sum = l.length := by
  induction l with
  | nil => rfl
  | cons a t ih =>
    have ha : g a = 1 := h a (List.mem_cons_self a t)
    have ht := ih (fun x hx => h x (List.mem_cons_of_mem a hx))
    simp [ha, ht, Nat.add_comm]

theorem closeCalled_notin_runTryBlock (outcome : Step → Except String Unit)
    (l : List Step) : Event.closeCalled ∉ runTryBlock outcome l := by
  induction l with
  | nil => simp [runTryBlock]
  | cons s t ih =>
    simp only [runTryBlock]
    cases h : outcome s with
    | ok u => simpa using ih
    | error m => simp

theorem runTryBlock_ok_append (outcome : Step → Except String Unit)
    (pre rest : List Step) (h : ∀ t ∈ pre, outcome t = Except.ok ()) :
    runTryBlock outcome (pre ++ rest)
      = pre.map Event.ran ++ runTryBlock outcome rest := by
  induction pre with
  | nil => rfl
  | cons s t ih =>
    have hs : outcome s = Except.ok () := h s (List.mem_cons_self s t)
    simp only [List.cons_append, runTryBlock, hs, List.map_cons]
    exact congrArg (List.cons (Event.ran s))
      (ih (fun x hx => h x (List.mem_cons_of_mem s hx)))

theorem filter_not_length_add_countP (p : α → Bool) (c : List α) :
    (c.filter (fun b => !p b)).length + c.countP p = c.length := by
  induction c with
  | nil => rfl
  | cons a t ih =>
    cases h : p a <;> simp [List.filter_cons, List.countP_cons, h] <;> omega

theorem countP_zip_map (f : α → α) [DecidableEq α] (c : List α) :
    c.countP (fun b => decide (f b ≠ b))
      = (c.zip (c.map f)).countP (fun p => decide (p.1 ≠ p.2)) := by
  induction c with
  | nil => rfl
  | cons a t ih =>
    have hdec : decide (f a ≠ a) = decide (a ≠ f a) :=
      decide_eq_decide.mpr ne_comm
    simp only [List.map_cons, List.zip_cons_cons, List.countP_cons, ih, hdec]

/-! ## Claim theorems -/

/-- C1: the price-multiply step multiplies each Fantasy-matching record's
price by exactly 1.1, leaving its other fields and every other record
unchanged; the reported modified count is the number of stored records the
update changed; and on the spec's seed of three Fantasy records with
prices 10, 20, 30 it produces prices 11, 22, 33 with a modified count
of 3. -/
theorem C1_updateFantasy_mul (bs : List Book) :
    (∀ (i : Nat) (b b' : Book), bs[i]? = some b →
        (updateFantasyPrices bs).1[i]? = some b' →
      (b.genre = "Fantasy" →
        b'.price = b.price * 1.1 ∧ b'.title = b.title ∧ b'.author = b.author ∧
        b'.genre = b.genre ∧ b'.published_year = b.published_year ∧
        b'.in_stock = b.in_stock ∧ b'._id = b._id) ∧
      (b.genre ≠ "Fantasy" → b' = b)) ∧
    (updateFantasyPrices bs).2
      = (bs.zip (updateFantasyPrices bs).1).countP (fun p => decide (p.1 ≠ p.2)) ∧
    (updateFantasyPrices seedFantasy).1.map Book.price = [11, 22, 33] ∧
    (updateFantasyPrices seedFantasy).2 = 3 := by
  refine ⟨?_, ?_, ?_, ?_⟩
  · intro i b b' hb hb'
    rw [show (updateFantasyPrices bs).1[i]? = Option.map applyMulFantasy bs[i]? from
          List.getElem?_map applyMulFantasy bs i, hb] at hb'
    have hb'' : b' = applyMulFantasy b := (Option.some_inj.mp hb').symm
    subst hb''
    constructor
    · intro hg
      simp [applyMulFantasy, hg]
    · intro hg
      simp [applyMulFantasy, hg]
  · exact countP_zip_map applyMulFantasy bs
  · simp only [updateFantasyPrices, seedFantasy, List.map_cons, List.map_nil,
      applyMulFantasy]
    norm_num
  · simp only [updateFantasyPrices, seedFantasy, List.countP_cons,
      List.countP_nil, applyMulFantasy]
    norm_num [Book.mk.injEq]

/-- Witness for C1: the first seed record, a Fantasy book priced 10, is
stored back with price 10 times 1.1. -/
theorem C1_updateFantasy_mul_wit :
    seedFantasy[0]? = some bkSeed0 ∧
    (updateFantasyPrices seedFantasy).1[0]? = some bkSeed0After ∧
    bkSeed0After.price = bkSeed0.price * 1.1 := by
  have h1 : seedFantasy[0]? = some bkSeed0 := rfl
  have h2 : (updateFantasyPrices seedFantasy).1[0]? = some bkSeed0After := by
    simp [updateFantasyPrices, seedFantasy, applyMulFantasy, bkSeed0After,
      Book.mk.injEq]
    norm_num
  exact ⟨h1, h2,
    (((C1_updateFantasy_mul seedFantasy).1 0 bkSeed0 bkSeed0After h1 h2).1 rfl).1⟩

/-- C3: after the year-threshold delete no remaining record was published
before 1950, and the reported deleted count plus the number of remaining
records is the original record count. -/
theorem C3_deleteOld (c : List Book) :
    (∀ b ∈ (deleteOldBooks c).1, ¬ (b.published_year < 1950)) ∧
    (deleteOldBooks c).1.length + (deleteOldBooks c).2 = c.length := by
  constructor
  · intro b hb
    have h := (List.mem_filter.mp hb).2
    simpa using h
  · exact filter_not_length_add_countP (fun b => decide (b.published_year < 1950)) c

/-- Witness for C3: on a two-record collection with one pre-1950 record,
the 1980 record remains and satisfies the year bound, and the counts add
up. -/
theorem C3_deleteOld_wit :
    (⟨2, "New", "a", "G", 6, 1980, true⟩ : Book) ∈ (deleteOldBooks cDelete).1 ∧
    ¬ ((⟨2, "New", "a", "G", 6, 1980, true⟩ : Book).published_year < 1950) ∧
    (deleteOldBooks cDelete).1.length + (deleteOldBooks cDelete).2
      = cDelete.length :=
  ⟨by decide, (C3_deleteOld cDelete).1 _ (by decide), (C3_deleteOld cDelete).2⟩

/-- C2: in every run of `executeQueries` the connection is released exactly
once; and whenever a step of the fixed sequence fails after all earlier
steps succeeded, the run consists of exactly the earlier steps, the failing
step, the catch logging the step's underlying message, and then the
finally-block releasing the connection — no later step runs. -/
theorem C2_error_boundary (outcome : Step → Except String Unit) :
    (executeQueries outcome).count Event.closeCalled = 1 ∧
    ∀ pre s m post, scriptSteps = pre ++ s :: post →
      (∀ t ∈ pre, outcome t = Except.ok ()) →
      outcome s = Except.error m →
      executeQueries outcome
        = pre.map Event.ran
          ++ [Event.ran s, Event.errorLogged m, Event.closeCalled,
              Event.closedMsgPrinted] := by
  constructor
  · rw [executeQueries, List.count_append]
    have h0 : (runTryBlock outcome scriptSteps).count Event.closeCalled = 0 :=
      List.count_eq_zero.mpr (closeCalled_notin_runTryBlock outcome scriptSteps)
    rw [h0]
    rfl
  · intro pre s m post hsplit hpre hs
    rw [executeQueries, hsplit, runTryBlock_ok_append outcome pre (s :: post) hpre]
    simp only [runTryBlock, hs]
    simp

/-- Witness for C2: with an environment in which the update step throws
"boom", the run is the two prior steps, the failing step, the logged
message, and the close — and the close count is one. -/
theorem C2_error_boundary_wit :
    (executeQueries outcomeUpdateFails).count Event.closeCalled = 1 ∧
    executeQueries outcomeUpdateFails
      = [Step.connect, Step.findFantasy].map Event.ran
        ++ [Event.ran Step.updateFantasy, Event.errorLogged "boom",
            Event.closeCalled, Event.closedMsgPrinted] := by
  refine ⟨(C2_error_boundary outcomeUpdateFails).1, ?_⟩
  exact (C2_error_boundary outcomeUpdateFails).2
    [Step.connect, Step.findFantasy] Step.updateFantasy "boom"
    [Step.deleteOld, Step.findInStock, Step.findTop3, Step.findPage1,
     Step.findPage2, Step.aggTopAuthors, Step.aggAvgByGenre,
     Step.aggTopAuthorByBooks, Step.aggByDecade, Step.createIndexTitle,
     Step.createIndexCompound, Step.listIndexes, Step.sortPriceAsc,
     Step.sortPriceDesc, Step.explainIndexed, Step.explainNonIndexed]
    rfl (by intro t ht; fin_cases ht <;> rfl) rfl

/-- C10: connecting happens inside the guarded sequence: when the initial
connect fails, the run is exactly the connect attempt, the logged error,
the close call on the never-connected client, and the connection-closed
line — and no step other than connect ever ran. -/
theorem C10_connect_failure (outcome : Step → Except String Unit) (m : String)
    (h : outcome Step.connect = Except.error m) :
    executeQueries outcome
      = [Event.ran Step.connect, Event.errorLogged m, Event.closeCalled,
         Event.closedMsgPrinted] ∧
    ∀ s, Event.ran s ∈ executeQueries outcome → s = Step.connect := by
  have he : executeQueries outcome
      = [Event.ran Step.connect, Event.errorLogged m, Event.closeCalled,
         Event.closedMsgPrinted] := by
    rw [executeQueries, scriptSteps]
    simp only [runTryBlock, h]
    rfl
  refine ⟨he, ?_⟩
  intro s hs
  rw [he] at hs
  simpa using hs

/-- Witness for C10: a concrete environment whose connect step fails with
"ENOTFOUND". -/
theorem C10_connect_failure_wit :
    executeQueries outcomeConnectFails
      = [Event.ran Step.connect, Event.errorLogged "ENOTFOUND",
         Event.closeCalled, Event.closedMsgPrinted] :=
  (C10_connect_failure outcomeConnectFails "ENOTFOUND" rfl).1

/-- C9: on the empty collection the author-with-most-books pipeline
returns no groups, and the report step takes the guarded fallback branch
instead of reading element 0. -/
theorem C9_topAuthor_empty :
    topAuthorByBooks ([] : List Book) = [] ∧
    reportTopAuthor (topAuthorByBooks ([] : List Book))
      = TopAuthorReport.noAuthorsFound := by
  constructor <;> rfl

/-- C4 counterexample: the Query Runner's first query step does not use
the connection handle the Connector produces. -/
theorem C4_cex : ¬ (clientUsed Step.findFantasy = connectDBHandle) := by
  decide

/-- C4 amended: every step of the Query Runner goes through the
`MongoClient` constructed in queries.js itself; that client is not the
Connector's handle, and queries.js does not require the connection
module at all. -/
theorem C4_own_client :
    (∀ s, clientUsed s = client) ∧ client ≠ connectDBHandle ∧
    "./connection" ∉ queriesRequires := by
  refine ⟨fun s => ?_, by decide, by decide⟩
  cases s <;> rfl

/-- C7 counterexample: on an eleven-record collection in which two
distinct documents share the same projected (title, author, price) view,
the two pages are not disjoint, and the re-sorted concatenation of the two
pages (ten entries) is not the full sorted record set (eleven entries). -/
theorem C7_cex :
    ¬ (page1Result cex11).Disjoint (page2Result cex11) ∧
    sortViews (page1Result cex11 ++ page2Result cex11)
      ≠ fullSortedByTitle cex11 := by
  constructor
  · intro hd
    exact hd (show dupView ∈ page1Result cex11 by decide)
      (show dupView ∈ page2Result cex11 by decide)
  · decide

/-- C7 amended: when no two records share a projected view, the two pages
are disjoint; their concatenation always equals the first ten entries of
the full sorted record set, and equals the whole of it exactly when the
collection has at most ten records. -/
theorem C7_pagination (c : List Book) (h : (c.map projectBook).Nodup) :
    (page1Result c).Disjoint (page2Result c) ∧
    page1Result c ++ page2Result c = (fullSortedByTitle c).take 10 ∧
    (c.length ≤ 10 → page1Result c ++ page2Result c = fullSortedByTitle c) := by
  have hfilter : c.filter (matchesFilter QueryFilter.all) = c :=
    List.filter_eq_self.mpr (fun a _ => rfl)
  have hp1 : page1Result c
      = ((sortLe (sortKeyLe .byTitleAsc) c).map projectBook).take 5 := by
    simp only [page1Result, runFind, page1Query, PAGE_SIZE, hfilter,
      List.drop_zero, List.map_take]
  have hp2 : page2Result c
      = (((sortLe (sortKeyLe .byTitleAsc) c).map projectBook).drop 5).take 5 := by
    simp only [page2Result, runFind, page2Query, PAGE_SIZE, hfilter,
      List.map_take, List.map_drop]
  have hperm : ((sortLe (sortKeyLe .byTitleAsc) c).map projectBook).Perm
      (c.map projectBook) := (sortLe_perm _ c).map projectBook
  have hnd : ((sortLe (sortKeyLe .byTitleAsc) c).map projectBook).Nodup :=
    hperm.nodup_iff.mpr h
  have hcat : page1Result c ++ page2Result c
      = ((sortLe (sortKeyLe .byTitleAsc) c).map projectBook).take 10 := by
    rw [hp1, hp2]
    exact (List.take_add _ 5 5).symm
  refine ⟨?_, hcat, ?_⟩
  · rw [hp1, hp2]
    intro x hx hy
    exact List.disjoint_take_drop hnd (le_refl 5) hx (List.take_subset _ _ hy)
  · intro hlen
    have hLlen : ((sortLe (sortKeyLe .byTitleAsc) c).map projectBook).length
        ≤ 10 := by
      rw [List.length_map, (sortLe_perm _ c).length_eq]
      exact hlen
    rw [hcat]
    exact List.take_of_length_le hLlen

/-- Witness for C7: a two-record collection with distinct projections. -/
theorem C7_pagination_wit :
    (cTwo.map projectBook).Nodup ∧
    ((page1Result cTwo).Disjoint (page2Result cTwo) ∧
     page1Result cTwo ++ page2Result cTwo = (fullSortedByTitle cTwo).take 10 ∧
     (cTwo.length ≤ 10 →
       page1Result cTwo ++ page2Result cTwo = fullSortedByTitle cTwo)) :=
  ⟨by decide, C7_pagination cTwo (by decide)⟩

/-- C8 counterexample: with six records by six different authors, the
limit-5 top-authors pipeline returns groups whose counts sum to five, not
to the six records of the collection. -/
theorem C8_cex :
    ((topAuthors c6authors).map PriceGroup.totalBooks).sum
      ≠ c6authors.length := by
  have hone : ∀ g ∈ (groupKeys Book.author c6authors).map
      (fun a => (⟨a, keyAvgPrice Book.author a c6authors,
                  keyCount Book.author a c6authors⟩ : PriceGroup)),
      g.totalBooks = 1 := by decide
  have hTA : topAuthors c6authors
      = (sortLe (fun g h => decide (h.avgPrice ≤ g.avgPrice))
          ((groupKeys Book.author c6authors).map
            (fun a => (⟨a, keyAvgPrice Book.author a c6authors,
                        keyCount Book.author a c6authors⟩ : PriceGroup)))).take 5 :=
    rfl
  have hone' : ∀ g ∈ topAuthors c6authors, g.totalBooks = 1 := by
    intro g hg
    rw [hTA] at hg
    exact hone g (((sortLe_perm _ _).mem_iff).mp (List.take_subset _ _ hg))
  have hsum : ((topAuthors c6authors).map PriceGroup.totalBooks).sum
      = (topAuthors c6authors).length :=
    sum_map_eq_length_of_all_one _ _ hone'
  have hkeys : (groupKeys Book.author c6authors).length = 6 := by decide
  have hlen : (topAuthors c6authors).length = 5 := by
    rw [hTA, List.length_take, (sortLe_perm _ _).length_eq, List.length_map,
      hkeys]
    decide
  rw [hsum, hlen]
  decide

/-- C8 amended: the per-group counts of the two unlimited pipelines
(average price by genre; books by decade) always sum to the total record
count; the counts of the limit-5 top-authors pipeline and the limit-1
top-author pipeline sum to the total only when the number of author
groups is within the respective limit. -/
theorem C8_counts (c : List Book) :
    ((avgPriceByGenre c).map PriceGroup.totalBooks).sum = c.length ∧
    ((booksByDecade c).map DecadeGroup.count).sum = c.length ∧
    ((groupKeys Book.author c).length ≤ 5 →
      ((topAuthors c).map PriceGroup.totalBooks).sum = c.length) ∧
    ((groupKeys Book.author c).length ≤ 1 →
      ((topAuthorByBooks c).map CountGroup.bookCount).sum = c.length) := by
  refine ⟨?_, ?_, ?_, ?_⟩
  · rw [avgPriceByGenre, sum_map_sortLe, List.map_map]
    exact sum_keyCounts Book.genre c
  · rw [booksByDecade, sum_map_sortLe, List.map_map]
    exact sum_keyCounts decadeKey c
  · intro h5
    have hlen : (sortLe (fun g h => decide (h.avgPrice ≤ g.avgPrice))
        ((groupKeys Book.author c).map
          (fun a => (⟨a, keyAvgPrice Book.author a c,
                      keyCount Book.author a c⟩ : PriceGroup)))).length ≤ 5 := by
      rw [(sortLe_perm _ _).length_eq, List.length_map]
      exact h5
    rw [topAuthors, List.take_of_length_le hlen, sum_map_sortLe, List.map_map]
    exact sum_keyCounts Book.author c
  · intro h1
    have hlen : (sortLe (fun g h => h.bookCount ≤ g.bookCount)
        ((groupKeys Book.author c).map
          (fun a => (⟨a, keyCount Book.author a c⟩ : CountGroup)))).length
        ≤ 1 := by
      rw [(sortLe_perm _ _).length_eq, List.length_map]
      exact h1
    rw [topAuthorByBooks, List.take_of_length_le hlen, sum_map_sortLe,
      List.map_map]
    exact sum_keyCounts Book.author c

/-- Witness for C8: a one-record collection, whose single author group is
within both limits. -/
theorem C8_counts_wit :
    ((groupKeys Book.author cOne).length ≤ 5 ∧
     (groupKeys Book.author cOne).length ≤ 1) ∧
    (((avgPriceByGenre cOne).map PriceGroup.totalBooks).sum = cOne.length ∧
     ((booksByDecade cOne).map DecadeGroup.count).sum = cOne.length ∧
     ((topAuthors cOne).map PriceGroup.totalBooks).sum = cOne.length ∧
     ((topAuthorByBooks cOne).map CountGroup.bookCount).sum = cOne.length) := by
  have h5 : (groupKeys Book.author cOne).length ≤ 5 := by decide
  have h1 : (groupKeys Book.author cOne).length ≤ 1 := by decide
  obtain ⟨ha, hb, hc, hd⟩ := C8_counts cOne
  exact ⟨⟨h5, h1⟩, ha, hb, hc h5, hd h1⟩

/-- C5 counterexample: the connection target of the script that actually
executes (queries.js) is not supplied by the environment. -/
theorem C5_cex : isFromEnv executedScriptUri = false := rfl

/-- C5 amended: the unused connection helper reads its target from the
environment variable MONGODB_URI, but the executed query script hardcodes
its target as a literal localhost URI. -/
theorem C5_uri_sources :
    isFromEnv connectionModuleUri = true ∧
    isFromEnv executedScriptUri = false ∧
    executedScriptUri = UriSource.hardcoded "mongodb://localhost:27017" :=
  ⟨rfl, rfl, rfl⟩

/-- C6 counterexample: the two offset+limit reads of the script share the
same filter and the same sort order. -/
theorem C6_cex :
    page1Query.filterSpec = page2Query.filterSpec ∧
    page1Query.sortSpec = page2Query.sortSpec :=
  ⟨rfl, rfl⟩

/-- C6 amended: the two offset+limit reads share the empty filter and the
title-ascending sort and differ only in offset (0 versus 5, both with
limit 5); the reads with different filters and sort orders are the
non-paginated ones (in-stock-after-1950, unsorted, versus unfiltered
top-3 by descending price). -/
theorem C6_paginated_reads :
    page1Query.filterSpec = page2Query.filterSpec ∧
    page1Query.sortSpec = page2Query.sortSpec ∧
    page1Query.skip = 0 ∧ page2Query.skip = PAGE_SIZE ∧
    page1Query.limit = some PAGE_SIZE ∧ page2Query.limit = some PAGE_SIZE ∧
    inStockQuery.filterSpec ≠ top3Query.filterSpec ∧
    inStockQuery.sortSpec ≠ top3Query.sortSpec :=
  ⟨rfl, rfl, rfl, rfl, rfl, rfl, by decide, by decide⟩

end Plp
